import Mathlib

/-!
Verification of the survey estimation engine (`SurveyEstimator` and the
winsorizer) of the Intelligent-Invoice-Processing repository,
`src/utils/dataCleaner.ts`.

JavaScript numbers are modelled as rationals (`ℚ`) for the exact arithmetic
pipeline; quantities that can become NaN (or another non-finite value that
subsequently collapses to NaN) are modelled as `Option ℚ` / `Option ℝ`, where
`none` stands for a non-finite JS number.  Square roots land in `Option ℝ`.
Cells of a data row carry either a finite number, the number NaN, a string
together with its `parseFloat` result, or `undefined` (absent field).
Bootstrap randomness (`Math.random()`) is modelled by an explicit stream of
draw indices `rng : ℕ → ℕ`, reduced modulo the sample size.
-/

namespace Survey

/-- A value stored in a row: a finite JS number, the JS number NaN, a string
(carrying its `parseFloat` result), or `undefined` (missing field). -/
inductive Cell where
  | num (q : ℚ)
  | nan
  | str (s : String) (p : Option ℚ)
  | undef
deriving DecidableEq

/-- A data row: an association list from field names to values
(JS objects have no duplicate keys; lookup takes the first binding). -/
abbrev Row := List (String × Cell)

/-- `row[k]` — field access, `undefined` when the key is absent. -/
def lookupCell (r : Row) (k : String) : Cell :=
  match r.find? (fun p => p.1 == k) with
  | some p => p.2
  | none => Cell.undef

/-- `parseFloat(cell)`: `none` means the result is NaN. -/
def parseFloatCell : Cell → Option ℚ
  | Cell.num q => some q
  | Cell.nan => none
  | Cell.str _ p => p
  | Cell.undef => none

/-- JS strict equality `===` restricted to row values; NaN is not equal to
anything (including itself), `undefined === undefined` holds. -/
def jsStrictEq : Cell → Cell → Bool
  | Cell.nan, _ => false
  | _, Cell.nan => false
  | a, b => a == b

/-- JS division: `none` when the denominator is zero (0/0 is NaN and x/0 is
±Infinity, both of which are non-finite and propagate to NaN in every context
the estimator uses them in). -/
def jdiv (a b : ℚ) : Option ℚ := if b = 0 then none else some (a / b)

/-- Addition with NaN propagation. -/
def oadd : Option ℚ → Option ℚ → Option ℚ
  | some a, some b => some (a + b)
  | _, _ => none

/-- Subtraction with NaN propagation. -/
def osub : Option ℚ → Option ℚ → Option ℚ
  | some a, some b => some (a - b)
  | _, _ => none

/-- Multiplication with NaN propagation (note JS has `0 * NaN = NaN`). -/
def omulO : Option ℚ → Option ℚ → Option ℚ
  | some a, some b => some (a * b)
  | _, _ => none

/-- `Math.pow(x, 2)` with NaN propagation. -/
def osq (x : Option ℚ) : Option ℚ := omulO x x

/-- `_.sum` over possibly-NaN terms (`_.sum([]) = 0`). -/
def osum (l : List (Option ℚ)) : Option ℚ := l.foldr oadd (some 0)

/-- `x / n` for a possibly-NaN numerator and a JS-number denominator. -/
def odivO (x : Option ℚ) (c : ℚ) : Option ℚ := x.bind (fun a => jdiv a c)

/-- `Math.sqrt` on a possibly-NaN argument: NaN on NaN or negative input. -/
noncomputable def jsqrt : Option ℚ → Option ℝ
  | none => none
  | some q => if q < 0 then none else some (Real.sqrt (q : ℝ))

/-- Multiplication of possibly-NaN real results. -/
noncomputable def rmul : Option ℝ → Option ℝ → Option ℝ
  | some a, some b => some (a * b)
  | _, _ => none

/-- Multiplication of a possibly-NaN real result by a finite JS number. -/
noncomputable def rmulc (x : Option ℝ) (c : ℚ) : Option ℝ :=
  x.map (fun a => a * (c : ℝ))

/-- `q - x` for finite `q`, NaN-propagating. -/
noncomputable def rsub (q : ℚ) (x : Option ℝ) : Option ℝ :=
  x.map (fun a => (q : ℝ) - a)

/-- `q + x` for finite `q`, NaN-propagating. -/
noncomputable def radd (q : ℚ) (x : Option ℝ) : Option ℝ :=
  x.map (fun a => (q : ℝ) + a)

/-- JS `≤` on possibly-NaN numbers: any comparison with NaN is false. -/
def jsLe : Option ℝ → Option ℝ → Prop
  | some a, some b => a ≤ b
  | _, _ => False

/-- `varianceMethod` values of `EstimationOptions`. -/
inductive VarianceMethod where
  | taylor
  | bootstrap
  | jackknife
deriving DecidableEq

/-- `EstimationOptions` of `src/types/survey` as consumed by the estimator. -/
structure EstimationOptions where
  weighted : Bool
  confidenceLevel : ℚ
  varianceMethod : VarianceMethod
  finitePopulationCorrection : Bool
  populationSize : Option ℚ := none

/-- The default options object of the estimator's signatures. -/
def defaultOptions : EstimationOptions :=
  { weighted := false, confidenceLevel := 95/100,
    varianceMethod := VarianceMethod.taylor,
    finitePopulationCorrection := false, populationSize := none }

/-- The `SurveyEstimate` output record.  `estimate`, `sampleSize`,
`effectiveSampleSize` and `designEffect` are always finite in the code (they
are produced before any square root or NaN-producing division), so they keep
exact types; the standard-error-derived fields are possibly-NaN reals. -/
structure SurveyEstimate where
  varName : String
  estimate : ℚ
  standardError : Option ℝ
  marginOfError : Option ℝ
  confidenceInterval : Option ℝ × Option ℝ
  sampleSize : ℕ
  effectiveSampleSize : ℚ
  designEffect : ℚ

/-- The per-row weight `weightColumn ? parseFloat(row[weightColumn]) || 1 : 1`:
an empty column name is falsy, and `|| 1` turns both NaN and 0 into 1. -/
def rowWeight (wc : Option String) (r : Row) : ℚ :=
  match wc with
  | none => 1
  | some c =>
    if c = "" then 1
    else
      match parseFloatCell (lookupCell r c) with
      | none => 1
      | some q => if q = 0 then 1 else q

/-- The filtered `{value, weight}` list of `calculateWeightedMean`:
`data.map(row => ({value: parseFloat(row[variable]), weight: ...}))
    .filter(item => !isNaN(item.value) && item.weight > 0)`. -/
def filteredValues (data : List Row) (v : String) (wc : Option String) :
    List (ℚ × ℚ) :=
  (data.map (fun r => (parseFloatCell (lookupCell r v), rowWeight wc r))).filterMap
    (fun p =>
      match p.1 with
      | some x => if 0 < p.2 then some (x, p.2) else none
      | none => none)

/-- `_.sumBy(values, 'weight')`. -/
def sumWeights (l : List (ℚ × ℚ)) : ℚ := (l.map Prod.snd).sum

/-- `_.sumBy(values, item => item.value * item.weight)`. -/
def weightedSum (l : List (ℚ × ℚ)) : ℚ := (l.map (fun p => p.1 * p.2)).sum

/-- `calculateSampleMean`: `weightedSum / totalWeight` (NaN on an empty
sample, whose total weight is 0). -/
def calculateSampleMean (values : List (ℚ × ℚ)) : Option ℚ :=
  jdiv (weightedSum values) (sumWeights values)

/-- `taylorVariance`: weighted sum of squared deviations over total weight. -/
def taylorVariance (values : List (ℚ × ℚ)) (mean : ℚ) : Option ℚ :=
  jdiv ((values.map (fun p => p.2 * (p.1 - mean) ^ 2)).sum) (sumWeights values)

/-- `jackknifeVariance`: leave-one-out means, then
`((n - 1) / n) * Σ (est - jackknifeMean)²`. -/
def jackknifeVariance (values : List (ℚ × ℚ)) : Option ℚ :=
  let n := values.length
  let estimates := (List.range n).map
    (fun i => calculateSampleMean (values.eraseIdx i))
  let jackknifeMean := (osum estimates).bind (fun s => jdiv s (n : ℚ))
  omulO (jdiv ((n : ℚ) - 1) (n : ℚ))
    (osum (estimates.map (fun e => osq (osub e jackknifeMean))))

/-- `bootstrapSample`: `n` draws with replacement; each JS
`Math.floor(Math.random() * n)` is modelled by a stream value mod `n`. -/
def bootstrapSample (values : List (ℚ × ℚ)) (rng : ℕ → ℕ) (base : ℕ) :
    List (ℚ × ℚ) :=
  (List.range values.length).map
    (fun j => values.getD (rng (base + j) % values.length) (0, 0))

/-- `bootstrapVariance`: 1000 resample means, centred on the original mean,
divided by 999. -/
def bootstrapVariance (values : List (ℚ × ℚ)) (mean : ℚ) (rng : ℕ → ℕ) :
    Option ℚ :=
  let bootstrapSamples := 1000
  let estimates := (List.range bootstrapSamples).map
    (fun i => calculateSampleMean (bootstrapSample values rng (i * values.length)))
  odivO (osum (estimates.map (fun e => osq (osub e (some mean)))))
    ((bootstrapSamples : ℚ) - 1)

/-- `calculateVariance`: dispatch on the variance method. -/
def calculateVariance (values : List (ℚ × ℚ)) (mean : ℚ)
    (method : VarianceMethod) (rng : ℕ → ℕ) : Option ℚ :=
  match method with
  | VarianceMethod.taylor => taylorVariance values mean
  | VarianceMethod.bootstrap => bootstrapVariance values mean rng
  | VarianceMethod.jackknife => jackknifeVariance values

/-- `calculateDesignEffect`: `(Σw² × n) / (Σw)²` (Kish).  The denominator is
positive whenever the function is reached (the filtered list is non-empty with
positive weights), so plain rational division is exact here. -/
def calculateDesignEffect (values : List (ℚ × ℚ)) : ℚ :=
  let weights := values.map Prod.snd
  ((weights.map (fun w => w * w)).sum * (values.length : ℚ)) /
    (weights.sum * weights.sum)

/-- `getTValue`: the fixed critical-value table, keyed by half-alpha and
bucketed by degrees of freedom; unknown keys fall back to 1.96. -/
def getTValue (alpha : ℚ) (df : ℚ) : ℚ :=
  if alpha = 1/40 then
    (if df > 30 then 196/100 else if df > 20 then 2086/1000
     else if df > 10 then 2228/1000 else 2571/1000)
  else if alpha = 1/20 then
    (if df > 30 then 1645/1000 else if df > 20 then 1725/1000
     else if df > 10 then 1812/1000 else 2015/1000)
  else if alpha = 1/100 then
    (if df > 30 then 2576/1000 else if df > 20 then 2845/1000
     else if df > 10 then 3169/1000 else 3707/1000)
  else 196/100

/-- `calculateMarginOfError`: `getTValue((1 - cl)/2, sampleSize - 1) × SE`
(the `sampleSize` argument the caller passes is the effective sample size). -/
noncomputable def calculateMarginOfError (standardError : Option ℝ)
    (confidenceLevel : ℚ) (sampleSize : ℚ) : Option ℝ :=
  rmul (some ((getTValue ((1 - confidenceLevel) / 2) (sampleSize - 1) : ℚ) : ℝ))
    standardError

/-- Does the `if (options.finitePopulationCorrection && options.populationSize)`
guard hold?  A populationSize of 0 is falsy. -/
def fpcApplies (o : EstimationOptions) : Bool :=
  o.finitePopulationCorrection &&
    (match o.populationSize with
     | some npop => decide (npop ≠ 0)
     | none => false)

/-- The fpc radicand `(populationSize - n) / (populationSize - 1)`. -/
def fpcBase (o : EstimationOptions) (n : ℕ) : Option ℚ :=
  match o.populationSize with
  | some npop => jdiv (npop - (n : ℚ)) (npop - 1)
  | none => none

/-- The finite population correction factor of lines 319-323:
`sqrt((populationSize - n)/(populationSize - 1))` whenever the guard holds
(with no `populationSize > n` check), else 1. -/
noncomputable def fpcFactor (o : EstimationOptions) (n : ℕ) : Option ℝ :=
  if fpcApplies o then jsqrt (fpcBase o n) else some 1

/-- `SurveyEstimator.calculateWeightedMean`. -/
noncomputable def calculateWeightedMean (data : List Row) (v : String)
    (wc : Option String) (o : EstimationOptions) (rng : ℕ → ℕ) :
    Except String SurveyEstimate :=
  let values := filteredValues data v wc
  if values = [] then
    Except.error ("No valid values found for variable: " ++ v)
  else
    let totalWeight := sumWeights values
    let estimate := weightedSum values / totalWeight
    let variance := calculateVariance values estimate o.varianceMethod rng
    let standardError := jsqrt (odivO variance (values.length : ℚ))
    let designEffect := if o.weighted then calculateDesignEffect values else 1
    let effectiveSampleSize := (values.length : ℚ) / designEffect
    let fpc := fpcFactor o values.length
    let adjustedSE := rmul (rmul standardError (some (Real.sqrt (designEffect : ℝ)))) fpc
    let marginOfError := calculateMarginOfError adjustedSE o.confidenceLevel effectiveSampleSize
    Except.ok
      { varName := v
        estimate := estimate
        standardError := adjustedSE
        marginOfError := marginOfError
        confidenceInterval := (rsub estimate marginOfError, radd estimate marginOfError)
        sampleSize := values.length
        effectiveSampleSize := effectiveSampleSize
        designEffect := designEffect }

/-- JS template-string rendering of a cell (`${category}`), used only for the
proportion's label. -/
def cellText : Cell → String
  | Cell.num q => toString q
  | Cell.nan => "NaN"
  | Cell.str s _ => s
  | Cell.undef => "undefined"

/-- The `{value, weight}` list of `calculateWeightedProportion`: the value is
the `row[variable] === category` indicator; the filter keeps `weight > 0`. -/
def propValues (data : List Row) (v : String) (category : Cell)
    (wc : Option String) : List (ℚ × ℚ) :=
  (data.map (fun r =>
    ((if jsStrictEq (lookupCell r v) category then (1 : ℚ) else 0),
      rowWeight wc r))).filter (fun p => 0 < p.2)

/-- `SurveyEstimator.calculateWeightedProportion`. -/
noncomputable def calculateWeightedProportion (data : List Row) (v : String)
    (category : Cell) (wc : Option String) (o : EstimationOptions) :
    Except String SurveyEstimate :=
  let values := propValues data v category wc
  if values = [] then
    Except.error ("No valid values found for variable: " ++ v)
  else
    let totalWeight := sumWeights values
    let proportion := weightedSum values / totalWeight
    let variance := proportion * (1 - proportion)
    let standardError := jsqrt (some (variance / (values.length : ℚ)))
    let designEffect := if o.weighted then calculateDesignEffect values else 1
    let effectiveSampleSize := (values.length : ℚ) / designEffect
    let fpc := fpcFactor o values.length
    let adjustedSE := rmul (rmul standardError (some (Real.sqrt (designEffect : ℝ)))) fpc
    let marginOfError := calculateMarginOfError adjustedSE o.confidenceLevel effectiveSampleSize
    Except.ok
      { varName := v ++ " (" ++ cellText category ++ ")"
        estimate := proportion
        standardError := adjustedSE
        marginOfError := marginOfError
        confidenceInterval :=
          ((rsub proportion marginOfError).map (fun a => max 0 a),
           (radd proportion marginOfError).map (fun a => min 1 a))
        sampleSize := values.length
        effectiveSampleSize := effectiveSampleSize
        designEffect := designEffect }

/-- `totalWeight` of `calculateWeightedTotal`: summed over ALL rows of the
dataset with the same `|| 1` weight default, not filtered by the variable. -/
def totalWeightAll (data : List Row) (wc : Option String) : ℚ :=
  (data.map (rowWeight wc)).sum

/-- `SurveyEstimator.calculateWeightedTotal`. -/
noncomputable def calculateWeightedTotal (data : List Row) (v : String)
    (wc : Option String) (o : EstimationOptions) (rng : ℕ → ℕ) :
    Except String SurveyEstimate :=
  match calculateWeightedMean data v wc o rng with
  | Except.error e => Except.error e
  | Except.ok meanEstimate =>
    let totalWeight := totalWeightAll data wc
    let total := meanEstimate.estimate * totalWeight
    let totalSE := rmulc meanEstimate.standardError totalWeight
    let totalMoE := rmulc meanEstimate.marginOfError totalWeight
    Except.ok
      { varName := "Total " ++ v
        estimate := total
        standardError := totalSE
        marginOfError := totalMoE
        confidenceInterval := (rsub total totalMoE, radd total totalMoE)
        sampleSize := meanEstimate.sampleSize
        effectiveSampleSize := meanEstimate.effectiveSampleSize
        designEffect := meanEstimate.designEffect }

/-- The numeric-parseable values of `variable` across the dataset, in row
order (`data.map(parseFloat).filter(!isNaN)`). -/
def rawVals (data : List Row) (v : String) : List ℚ :=
  (data.map (fun r => parseFloatCell (lookupCell r v))).filterMap id

/-- The sorted value array of `winsorizeData` (`.sort((a, b) => a - b)`). -/
def sortedVals (data : List Row) (v : String) : List ℚ :=
  (rawVals data v).insertionSort (fun a b => a ≤ b)

/-- JS array indexing `values[i]`: `undefined` out of bounds. -/
def jsGet (l : List ℚ) (i : ℤ) : Option ℚ :=
  if i < 0 then none else l.get? i.toNat

/-- `Math.min(ub, x)` where `ub` may be `undefined`/NaN. -/
def jminO (ub : Option ℚ) (x : ℚ) : Option ℚ := ub.map (fun u => min u x)

/-- `Math.max(lb, y)` where both arguments may be `undefined`/NaN. -/
def jmaxO (lb : Option ℚ) (y : Option ℚ) : Option ℚ :=
  match lb, y with
  | some a, some b => some (max a b)
  | _, _ => none

/-- Writing a JS number (possibly NaN) back into a row cell. -/
def toCell : Option ℚ → Cell
  | some q => Cell.num q
  | none => Cell.nan

/-- `{...row, [variable]: value}`: replace the first binding of the key in
place, or append the key if absent. -/
def rowUpdate (r : Row) (k : String) (c : Cell) : Row :=
  match r with
  | [] => [(k, c)]
  | (k', c') :: rest =>
    if k' = k then (k, c) :: rest else (k', c') :: rowUpdate rest k c

/-- `SurveyEstimator.winsorizeData`. -/
def winsorizeData (data : List Row) (v : String)
    (lowerPercentile : ℚ) (upperPercentile : ℚ) : List Row :=
  let values := sortedVals data v
  if values = [] then data
  else
    let lowerIndex := ⌊(values.length : ℚ) * lowerPercentile⌋
    let upperIndex := ⌊(values.length : ℚ) * upperPercentile⌋
    let lowerBound := jsGet values lowerIndex
    let upperBound := jsGet values upperIndex
    data.map (fun r =>
      match parseFloatCell (lookupCell r v) with
      | none => r
      | some value => rowUpdate r v (toCell (jmaxO lowerBound (jminO upperBound value))))

/-- A fixed random stream for concrete evaluations. -/
def rng0 : ℕ → ℕ := fun _ => 0

/-- The `estimate` field of a call result (0 on error). -/
def estimateOf : Except String SurveyEstimate → ℚ
  | Except.ok e => e.estimate
  | Except.error _ => 0

/-- The `standardError` field of a call result (`none` on error). -/
def seOf : Except String SurveyEstimate → Option ℝ
  | Except.ok e => e.standardError
  | Except.error _ => none

/-- The `marginOfError` field of a call result (`none` on error). -/
def moeOf : Except String SurveyEstimate → Option ℝ
  | Except.ok e => e.marginOfError
  | Except.error _ => none

/-- The `confidenceInterval` field of a call result. -/
def ciOf : Except String SurveyEstimate → Option ℝ × Option ℝ
  | Except.ok e => e.confidenceInterval
  | Except.error _ => (none, none)

/-- The `sampleSize` field of a call result (0 on error). -/
def nOf : Except String SurveyEstimate → ℕ
  | Except.ok e => e.sampleSize
  | Except.error _ => 0

/-- The `effectiveSampleSize` field of a call result (0 on error). -/
def essOf : Except String SurveyEstimate → ℚ
  | Except.ok e => e.effectiveSampleSize
  | Except.error _ => 0

/-- The `designEffect` field of a call result (0 on error). -/
def deffOf : Except String SurveyEstimate → ℚ
  | Except.ok e => e.designEffect
  | Except.error _ => 0

/-! Derived views of the local bindings of `calculateWeightedMean` /
`calculateWeightedProportion`, used to state the projection lemmas below.
Each is definitionally the corresponding `let` of the source function. -/

/-- The `estimate` local: `weightedSum / totalWeight`. -/
def meanEst (vals : List (ℚ × ℚ)) : ℚ := weightedSum vals / sumWeights vals

/-- The `designEffect` local. -/
def meanDeff (vals : List (ℚ × ℚ)) (o : EstimationOptions) : ℚ :=
  if o.weighted then calculateDesignEffect vals else 1

/-- The `variance` local. -/
def meanVar (vals : List (ℚ × ℚ)) (o : EstimationOptions) (rng : ℕ → ℕ) :
    Option ℚ :=
  calculateVariance vals (meanEst vals) o.varianceMethod rng

/-- The `adjustedSE` local: `standardError × sqrt(designEffect) × fpc`. -/
noncomputable def meanAdjSE (vals : List (ℚ × ℚ)) (o : EstimationOptions)
    (rng : ℕ → ℕ) : Option ℝ :=
  rmul (rmul (jsqrt (odivO (meanVar vals o rng) (vals.length : ℚ)))
      (some (Real.sqrt ((meanDeff vals o : ℚ) : ℝ))))
    (fpcFactor o vals.length)

/-- The `marginOfError` local. -/
noncomputable def meanMoE (vals : List (ℚ × ℚ)) (o : EstimationOptions)
    (rng : ℕ → ℕ) : Option ℝ :=
  calculateMarginOfError (meanAdjSE vals o rng) o.confidenceLevel
    ((vals.length : ℚ) / meanDeff vals o)

/-- The `adjustedSE` local of the proportion pipeline (binomial variance). -/
noncomputable def propAdjSE (vals : List (ℚ × ℚ)) (o : EstimationOptions) :
    Option ℝ :=
  rmul (rmul (jsqrt (some ((meanEst vals * (1 - meanEst vals)) / (vals.length : ℚ))))
      (some (Real.sqrt ((meanDeff vals o : ℚ) : ℝ))))
    (fpcFactor o vals.length)

/-- The `marginOfError` local of the proportion pipeline. -/
noncomputable def propMoE (vals : List (ℚ × ℚ)) (o : EstimationOptions) :
    Option ℝ :=
  calculateMarginOfError (propAdjSE vals o) o.confidenceLevel
    ((vals.length : ℚ) / meanDeff vals o)

section ProjectionLemmas

lemma calcWM_error (data : List Row) (v : String) (wc : Option String)
    (o : EstimationOptions) (rng : ℕ → ℕ) (h : filteredValues data v wc = []) :
    calculateWeightedMean data v wc o rng =
      Except.error ("No valid values found for variable: " ++ v) := by
  simp only [calculateWeightedMean]
  rw [if_pos h]

lemma calcWM_ok (data : List Row) (v : String) (wc : Option String)
    (o : EstimationOptions) (rng : ℕ → ℕ) (h : filteredValues data v wc ≠ []) :
    calculateWeightedMean data v wc o rng =
      Except.ok
        { varName := v
          estimate := meanEst (filteredValues data v wc)
          standardError := meanAdjSE (filteredValues data v wc) o rng
          marginOfError := meanMoE (filteredValues data v wc) o rng
          confidenceInterval :=
            (rsub (meanEst (filteredValues data v wc)) (meanMoE (filteredValues data v wc) o rng),
             radd (meanEst (filteredValues data v wc)) (meanMoE (filteredValues data v wc) o rng))
          sampleSize := (filteredValues data v wc).length
          effectiveSampleSize :=
            ((filteredValues data v wc).length : ℚ) / meanDeff (filteredValues data v wc) o
          designEffect := meanDeff (filteredValues data v wc) o } := by
  simp only [calculateWeightedMean, if_neg h, meanEst, meanDeff, meanVar,
    meanAdjSE, meanMoE]

lemma calcWP_error (data : List Row) (v : String) (category : Cell)
    (wc : Option String) (o : EstimationOptions)
    (h : propValues data v category wc = []) :
    calculateWeightedProportion data v category wc o =
      Except.error ("No valid values found for variable: " ++ v) := by
  simp only [calculateWeightedProportion]
  rw [if_pos h]

lemma calcWP_ok (data : List Row) (v : String) (category : Cell)
    (wc : Option String) (o : EstimationOptions)
    (h : propValues data v category wc ≠ []) :
    calculateWeightedProportion data v category wc o =
      Except.ok
        { varName := v ++ " (" ++ cellText category ++ ")"
          estimate := meanEst (propValues data v category wc)
          standardError := propAdjSE (propValues data v category wc) o
          marginOfError := propMoE (propValues data v category wc) o
          confidenceInterval :=
            ((rsub (meanEst (propValues data v category wc)) (propMoE (propValues data v category wc) o)).map
               (fun a => max 0 a),
             (radd (meanEst (propValues data v category wc)) (propMoE (propValues data v category wc) o)).map
               (fun a => min 1 a))
          sampleSize := (propValues data v category wc).length
          effectiveSampleSize :=
            ((propValues data v category wc).length : ℚ) / meanDeff (propValues data v category wc) o
          designEffect := meanDeff (propValues data v category wc) o } := by
  simp only [calculateWeightedProportion, if_neg h, meanEst, meanDeff,
    propAdjSE, propMoE]

lemma calcWT_ok (data : List Row) (v : String) (wc : Option String)
    (o : EstimationOptions) (rng : ℕ → ℕ) (m : SurveyEstimate)
    (hm : calculateWeightedMean data v wc o rng = Except.ok m) :
    calculateWeightedTotal data v wc o rng =
      Except.ok
        { varName := "Total " ++ v
          estimate := m.estimate * totalWeightAll data wc
          standardError := rmulc m.standardError (totalWeightAll data wc)
          marginOfError := rmulc m.marginOfError (totalWeightAll data wc)
          confidenceInterval :=
            (rsub (m.estimate * totalWeightAll data wc) (rmulc m.marginOfError (totalWeightAll data wc)),
             radd (m.estimate * totalWeightAll data wc) (rmulc m.marginOfError (totalWeightAll data wc)))
          sampleSize := m.sampleSize
          effectiveSampleSize := m.effectiveSampleSize
          designEffect := m.designEffect } := by
  simp only [calculateWeightedTotal, hm]

end ProjectionLemmas

section OptionKit

lemma oadd_none_right (x : Option ℚ) : oadd x none = none := by
  cases x <;> rfl

lemma osub_none_right (x : Option ℚ) : osub x none = none := by
  cases x <;> rfl

lemma omulO_none_right (x : Option ℚ) : omulO x none = none := by
  cases x <;> rfl

lemma rmul_none_right (x : Option ℝ) : rmul x none = none := by
  cases x <;> rfl

lemma rmul_none_left (x : Option ℝ) : rmul none x = none := by
  cases x <;> rfl

lemma jmaxO_none_right (x : Option ℚ) : jmaxO x none = none := by
  cases x <;> rfl

lemma jsLe_some_some (a b : ℝ) : jsLe (some a) (some b) ↔ a ≤ b := Iff.rfl

lemma jsLe_none_right (x : Option ℝ) : ¬ jsLe x none := by
  cases x <;> exact fun h => h

/-- Did the call succeed? -/
def isOkE : Except String SurveyEstimate → Bool
  | Except.ok _ => true
  | Except.error _ => false

end OptionKit

/-! ## Claim C1 -/

/-- **C1.** `calculateWeightedMean` fails with the empty-sample error — whose
message names the variable — exactly when the filtered `{value, weight}` list
is empty, and succeeds exactly when at least one valid pair remains. -/
theorem c1_empty_sample_error_iff (data : List Row) (v : String)
    (wc : Option String) (o : EstimationOptions) (rng : ℕ → ℕ) :
    (calculateWeightedMean data v wc o rng =
        Except.error ("No valid values found for variable: " ++ v)
      ↔ filteredValues data v wc = [])
    ∧ (isOkE (calculateWeightedMean data v wc o rng) = true
      ↔ filteredValues data v wc ≠ []) := by
  by_cases h : filteredValues data v wc = []
  · rw [calcWM_error data v wc o rng h]
    simp [isOkE, h]
  · rw [calcWM_ok data v wc o rng h]
    simp [isOkE, h]

/-- Witness for C1: both `calculateWeightedMean([], 'x')` and
`calculateWeightedMean([{x:'abc'}], 'x')` fail with the empty-sample error. -/
theorem c1_empty_sample_error_iff_witness :
    calculateWeightedMean [] "x" none defaultOptions rng0 =
      Except.error ("No valid values found for variable: " ++ "x")
    ∧ calculateWeightedMean [[("x", Cell.str "abc" none)]] "x" none defaultOptions rng0 =
      Except.error ("No valid values found for variable: " ++ "x") :=
  ⟨(c1_empty_sample_error_iff [] "x" none defaultOptions rng0).1.mpr (by decide),
   (c1_empty_sample_error_iff [[("x", Cell.str "abc" none)]] "x" none
      defaultOptions rng0).1.mpr (by decide)⟩

/-! ## Claim C2 -/

/-- **C2 counterexample.** A row whose weight field parses to 0 is *not*
excluded: the `|| 1` fallback coerces the weight to 1, so the row is included
with weight 1 — it is counted in `sampleSize` and drives the estimate.  The
same happens to a row with no weight field at all. -/
theorem c2_zero_weight_included :
    nOf (calculateWeightedMean [[("x", Cell.num 1), ("w", Cell.num 0)]] "x"
        (some "w") defaultOptions rng0) = 1
    ∧ estimateOf (calculateWeightedMean [[("x", Cell.num 1), ("w", Cell.num 0)]] "x"
        (some "w") defaultOptions rng0) = 1
    ∧ filteredValues [[("x", Cell.num 1), ("w", Cell.num 0)]] "x" (some "w") = [(1, 1)]
    ∧ filteredValues [[("x", Cell.num 2)]] "x" (some "w") = [(2, 1)] := by
  have h : filteredValues [[("x", Cell.num 1), ("w", Cell.num 0)]] "x" (some "w")
      = [(1, 1)] := by decide
  have hne : filteredValues [[("x", Cell.num 1), ("w", Cell.num 0)]] "x" (some "w")
      ≠ [] := by rw [h]; exact List.cons_ne_nil _ _
  refine ⟨?_, ?_, h, by decide⟩
  · rw [calcWM_ok _ _ _ _ _ hne]
    simp [nOf, h]
  · rw [calcWM_ok _ _ _ _ _ hne]
    rw [show estimateOf (Except.ok
      { varName := "x"
        estimate := meanEst (filteredValues [[("x", Cell.num 1), ("w", Cell.num 0)]] "x" (some "w"))
        standardError := meanAdjSE (filteredValues [[("x", Cell.num 1), ("w", Cell.num 0)]] "x" (some "w")) defaultOptions rng0
        marginOfError := meanMoE (filteredValues [[("x", Cell.num 1), ("w", Cell.num 0)]] "x" (some "w")) defaultOptions rng0
        confidenceInterval := _
        sampleSize := _
        effectiveSampleSize := _
        designEffect := _ }) = meanEst (filteredValues [[("x", Cell.num 1), ("w", Cell.num 0)]] "x" (some "w")) from rfl]
    rw [h]
    norm_num [meanEst, weightedSum, sumWeights]

/-- **C2 amended.** Every observation included in `filteredValues` has weight
`> 0`; the included rows are exactly those whose value parses and whose
*coerced* weight is positive; and the coercion sends a missing/unparseable or
zero weight to 1 (so such rows are included, not excluded — only a weight
parsing to a negative number leads to exclusion). -/
theorem c2_amended_weight_filter (data : List Row) (v : String) (wc : Option String) :
    (∀ p ∈ filteredValues data v wc, 0 < p.2)
    ∧ filteredValues data v wc = data.filterMap (fun r =>
        match parseFloatCell (lookupCell r v) with
        | some x => if 0 < rowWeight wc r then some (x, rowWeight wc r) else none
        | none => none)
    ∧ (∀ r : Row, ∀ c : String, wc = some c → c ≠ "" →
        (parseFloatCell (lookupCell r c) = none ∨ parseFloatCell (lookupCell r c) = some 0) →
        rowWeight wc r = 1)
    ∧ (∀ r : Row, ∀ c : String, ∀ q : ℚ, wc = some c → c ≠ "" →
        parseFloatCell (lookupCell r c) = some q → q ≠ 0 →
        rowWeight wc r = q) := by
  refine ⟨?_, ?_, ?_, ?_⟩
  · intro p hp
    unfold filteredValues at hp
    rw [List.mem_filterMap] at hp
    obtain ⟨a, _, hfa⟩ := hp
    split at hfa
    · split at hfa
      · rename_i x hw
        injection hfa with h
        subst h
        exact hw
      · exact absurd hfa (by simp)
    · exact absurd hfa (by simp)
  · unfold filteredValues
    rw [List.filterMap_map]
    rfl
  · intro r c hwc hce hparse
    subst hwc
    unfold rowWeight
    rcases hparse with hparse | hparse <;> simp [hce, hparse]
  · intro r c q hwc hce hparse hq
    subst hwc
    unfold rowWeight
    simp [hce, hparse, hq]

/-- Witness for C2 (amended): on a concrete dataset the included pair has
positive weight, and a weight cell holding 0 is coerced to weight 1. -/
theorem c2_amended_weight_filter_witness :
    (0 : ℚ) < (1 : ℚ)
    ∧ rowWeight (some "w") [("x", Cell.num 1), ("w", Cell.num 0)] = 1 := by
  refine ⟨?_, ?_⟩
  · exact (c2_amended_weight_filter [[("x", Cell.num 1), ("w", Cell.num 0)]] "x"
      (some "w")).1 (1, 1) (by decide)
  · exact (c2_amended_weight_filter [[("x", Cell.num 1), ("w", Cell.num 0)]] "x"
      (some "w")).2.2.1 [("x", Cell.num 1), ("w", Cell.num 0)] "w" rfl
      (by decide) (Or.inr (by decide))

/-! ## Claim C6 -/

/-- **C6.** On every non-empty filtered sample the estimate returned by
`calculateWeightedMean` is `Σ(value×weight) / Σweight` over the filtered
pairs. -/
theorem c6_weighted_mean_formula (data : List Row) (v : String)
    (wc : Option String) (o : EstimationOptions) (rng : ℕ → ℕ)
    (h : filteredValues data v wc ≠ []) :
    estimateOf (calculateWeightedMean data v wc o rng) =
      weightedSum (filteredValues data v wc) / sumWeights (filteredValues data v wc) := by
  rw [calcWM_ok data v wc o rng h]
  rfl

/-- Witness for C6: unit weights give the plain mean 4 on `[2, 4, 6]`, and the
weighted example `[{x:10,w:1},{x:20,w:3}]` gives exactly 17.5. -/
theorem c6_weighted_mean_formula_witness :
    estimateOf (calculateWeightedMean
      [[("x", Cell.num 2)], [("x", Cell.num 4)], [("x", Cell.num 6)]] "x" none
      defaultOptions rng0) = 4
    ∧ estimateOf (calculateWeightedMean
      [[("x", Cell.num 10), ("w", Cell.num 1)], [("x", Cell.num 20), ("w", Cell.num 3)]]
      "x" (some "w") defaultOptions rng0) = 35/2 := by
  constructor
  · rw [c6_weighted_mean_formula _ "x" none defaultOptions rng0 (by decide)]
    rw [show filteredValues [[("x", Cell.num 2)], [("x", Cell.num 4)], [("x", Cell.num 6)]]
        "x" none = [(2, 1), (4, 1), (6, 1)] from by decide]
    norm_num [weightedSum, sumWeights]
  · rw [c6_weighted_mean_formula _ "x" (some "w") defaultOptions rng0 (by decide)]
    rw [show filteredValues
        [[("x", Cell.num 10), ("w", Cell.num 1)], [("x", Cell.num 20), ("w", Cell.num 3)]]
        "x" (some "w") = [(10, 1), (20, 3)] from by decide]
    norm_num [weightedSum, sumWeights]

/-! ## Claim C3 -/

/-- Options with the fpc flag set and `populationSize = 3`. -/
def optsFpc3 : EstimationOptions :=
  { weighted := false, confidenceLevel := 95/100,
    varianceMethod := VarianceMethod.taylor,
    finitePopulationCorrection := true, populationSize := some 3 }

/-- Three unit-weight rows with values 1, 2, 3. -/
def dataFpc3 : List Row :=
  [[("x", Cell.num 1)], [("x", Cell.num 2)], [("x", Cell.num 3)]]

/-- **C3 counterexample.** With `populationSize = 3` equal to the sample size
3 (so not `populationSize > sampleSize`), the claim says the factor used is 1;
the code instead computes `sqrt((3−3)/(3−1)) = 0` — and the returned
standard error is 0, not the unscaled standard error. -/
theorem c3_fpc_applied_without_guard :
    fpcFactor optsFpc3 3 = some 0
    ∧ fpcFactor optsFpc3 3 ≠ some 1
    ∧ seOf (calculateWeightedMean dataFpc3 "x" none optsFpc3 rng0) = some 0 := by
  have hbase : fpcBase optsFpc3 3 = some 0 := by
    unfold fpcBase optsFpc3
    norm_num [jdiv]
  have hfpc : fpcFactor optsFpc3 3 = some 0 := by
    rw [fpcFactor, if_pos (by decide), hbase]
    simp only [jsqrt]
    rw [if_neg (by norm_num)]
    norm_num
  refine ⟨hfpc, by rw [hfpc]; norm_num, ?_⟩
  have h : filteredValues dataFpc3 "x" none = [(1, 1), (2, 1), (3, 1)] := by decide
  have hne : filteredValues dataFpc3 "x" none ≠ [] := by
    rw [h]; exact List.cons_ne_nil _ _
  rw [calcWM_ok _ _ _ _ _ hne]
  show meanAdjSE (filteredValues dataFpc3 "x" none) optsFpc3 rng0 = some 0
  rw [meanAdjSE, h]
  have hl : (([(1, 1), (2, 1), (3, 1)] : List (ℚ × ℚ))).length = 3 := rfl
  rw [hl]
  have hvar : meanVar [(1, 1), (2, 1), (3, 1)] optsFpc3 rng0 = some (2/3) := by
    rw [meanVar]
    have hme : meanEst [(1, 1), (2, 1), (3, 1)] = 2 := by
      rw [meanEst]; norm_num [weightedSum, sumWeights]
    rw [hme]
    show taylorVariance [(1, 1), (2, 1), (3, 1)] 2 = some (2/3)
    unfold taylorVariance jdiv
    norm_num [sumWeights]
  rw [hvar]
  have hdiv : odivO (some ((2 : ℚ)/3)) ((3 : ℕ) : ℚ) = some (2/9) := by
    unfold odivO jdiv
    norm_num
  rw [hdiv]
  simp only [jsqrt]
  rw [if_neg (by norm_num)]
  rw [hfpc]
  rw [show meanDeff [(1, 1), (2, 1), (3, 1)] optsFpc3 = 1 from rfl]
  simp only [rmul]
  norm_num

/-- **C3 amended.** The factor multiplied into the standard error is
`sqrt((populationSize − n)/(populationSize − 1))` exactly when
`finitePopulationCorrection` is set and `populationSize` is supplied and
nonzero — with *no* `populationSize > sampleSize` requirement: when they are
not both set the factor is 1, when `populationSize > n` it is the claimed
square root, but when `populationSize = n ≥ 2` it is 0 (and for
`populationSize < n` the radicand is negative, giving NaN), never 1. -/
theorem c3_fpc_condition (o : EstimationOptions) (n : ℕ) (hn : 1 ≤ n) :
    (fpcApplies o = false → fpcFactor o n = some 1)
    ∧ (∀ npop : ℚ, o.populationSize = some npop → fpcApplies o = true →
        (n : ℚ) < npop →
        fpcFactor o n = some (Real.sqrt (((npop - (n : ℚ)) / (npop - 1) : ℚ) : ℝ)))
    ∧ (∀ npop : ℚ, o.populationSize = some npop → fpcApplies o = true →
        npop = (n : ℚ) → 2 ≤ n → fpcFactor o n = some 0) := by
  refine ⟨?_, ?_, ?_⟩
  · intro hfalse
    rw [fpcFactor, hfalse]
    simp
  · intro npop hpop happ hlt
    have hn1 : (1 : ℚ) ≤ (n : ℚ) := by exact_mod_cast hn
    have hgt1 : (1 : ℚ) < npop := lt_of_le_of_lt hn1 hlt
    have hd : npop - 1 ≠ 0 := by
      intro hc
      rw [sub_eq_zero] at hc
      rw [hc] at hgt1
      exact lt_irrefl _ hgt1
    have hbase : fpcBase o n = some ((npop - (n : ℚ)) / (npop - 1)) := by
      unfold fpcBase
      rw [hpop]
      unfold jdiv
      show (if npop - 1 = 0 then (none : Option ℚ)
        else some ((npop - (n : ℚ)) / (npop - 1))) = some ((npop - (n : ℚ)) / (npop - 1))
      rw [if_neg hd]
    rw [fpcFactor, if_pos happ, hbase]
    simp only [jsqrt]
    rw [if_neg (not_lt.mpr (div_nonneg (by linarith) (by linarith)))]
  · intro npop hpop happ heq hn2
    have h2 : (2 : ℚ) ≤ (n : ℚ) := by exact_mod_cast hn2
    have hd : npop - 1 ≠ 0 := by
      rw [heq]
      intro hc
      rw [sub_eq_zero] at hc
      rw [hc] at h2
      norm_num at h2
    have hbase : fpcBase o n = some 0 := by
      unfold fpcBase
      rw [hpop]
      unfold jdiv
      show (if npop - 1 = 0 then (none : Option ℚ)
        else some ((npop - (n : ℚ)) / (npop - 1))) = some 0
      rw [if_neg hd, heq]
      norm_num
    rw [fpcFactor, if_pos happ, hbase]
    simp only [jsqrt]
    rw [if_neg (by norm_num)]
    norm_num

/-- Options with the fpc flag set and `populationSize = 5`. -/
def optsFpc5 : EstimationOptions :=
  { weighted := false, confidenceLevel := 95/100,
    varianceMethod := VarianceMethod.taylor,
    finitePopulationCorrection := true, populationSize := some 5 }

/-- Witness for C3 (amended): with the flag unset the factor is 1; with the
flag set, `populationSize = 5` and a sample of 3 the factor is
`sqrt((5−3)/(5−1))`. -/
theorem c3_fpc_condition_witness :
    fpcFactor defaultOptions 3 = some 1
    ∧ fpcFactor optsFpc5 3 =
      some (Real.sqrt (((5 - ((3 : ℕ) : ℚ)) / (5 - 1) : ℚ) : ℝ)) :=
  ⟨(c3_fpc_condition defaultOptions 3 (by norm_num)).1 (by decide),
   (c3_fpc_condition optsFpc5 3 (by norm_num)).2.1 5 rfl (by decide)
     (by norm_num)⟩

/-! ## Claim C5 -/

/-- Jackknife options. -/
def optsJack : EstimationOptions :=
  { weighted := false, confidenceLevel := 95/100,
    varianceMethod := VarianceMethod.jackknife,
    finitePopulationCorrection := false, populationSize := none }

/-- On a singleton sample the jackknife variance is NaN: the single
leave-one-out sample is empty, its mean is `0/0 = NaN`, and NaN propagates
through the variance formula. -/
lemma jackknifeVariance_singleton : jackknifeVariance [((1 : ℚ), (1 : ℚ))] = none := by
  norm_num [jackknifeVariance, calculateSampleMean, weightedSum, sumWeights,
    List.range_succ, osum, oadd, jdiv, osq, osub, omulO]

/-- **C5 (code slip).** `calculateWeightedMean([{x:1}], 'x')` with the
jackknife variance method does not fail — yet its `standardError`,
`marginOfError` and both confidence-interval endpoints are all NaN, which the
spec's failure-semantics section forbids a caller from receiving. -/
theorem c5_jackknife_singleton_nan :
    isOkE (calculateWeightedMean [[("x", Cell.num 1)]] "x" none optsJack rng0) = true
    ∧ seOf (calculateWeightedMean [[("x", Cell.num 1)]] "x" none optsJack rng0) = none
    ∧ moeOf (calculateWeightedMean [[("x", Cell.num 1)]] "x" none optsJack rng0) = none
    ∧ ciOf (calculateWeightedMean [[("x", Cell.num 1)]] "x" none optsJack rng0) = (none, none) := by
  have h : filteredValues [[("x", Cell.num 1)]] "x" none = [(1, 1)] := by decide
  have hne : filteredValues [[("x", Cell.num 1)]] "x" none ≠ [] := by
    rw [h]; exact List.cons_ne_nil _ _
  have hse : meanAdjSE (filteredValues [[("x", Cell.num 1)]] "x" none) optsJack rng0 = none := by
    rw [meanAdjSE, h]
    rw [show meanVar [((1 : ℚ), (1 : ℚ))] optsJack rng0 = none from by
      rw [meanVar]
      show jackknifeVariance [((1 : ℚ), (1 : ℚ))] = none
      exact jackknifeVariance_singleton]
    rw [show odivO (none : Option ℚ) (([((1 : ℚ), (1 : ℚ))] : List (ℚ × ℚ)).length : ℚ) = none from rfl]
    rw [show jsqrt none = none from rfl]
    rw [rmul_none_left, rmul_none_left]
  have hmoe : meanMoE (filteredValues [[("x", Cell.num 1)]] "x" none) optsJack rng0 = none := by
    rw [meanMoE, calculateMarginOfError, hse, rmul_none_right]
  refine ⟨?_, ?_, ?_, ?_⟩
  · rw [calcWM_ok _ _ _ _ _ hne]; rfl
  · rw [calcWM_ok _ _ _ _ _ hne]
    show meanAdjSE (filteredValues [[("x", Cell.num 1)]] "x" none) optsJack rng0 = none
    exact hse
  · rw [calcWM_ok _ _ _ _ _ hne]
    show meanMoE (filteredValues [[("x", Cell.num 1)]] "x" none) optsJack rng0 = none
    exact hmoe
  · rw [calcWM_ok _ _ _ _ _ hne]
    show (rsub _ (meanMoE (filteredValues [[("x", Cell.num 1)]] "x" none) optsJack rng0),
          radd _ (meanMoE (filteredValues [[("x", Cell.num 1)]] "x" none) optsJack rng0)) = (none, none)
    rw [hmoe]
    rfl

/-! ## Claim C10 -/

/-- **C10.** With `upperPercentile = 1` the upper index `floor(n × 1) = n`
points one past the end of the sorted value array, the out-of-bounds read
yields `undefined`, and every row whose value parses numerically comes back
with its variable field set to NaN (via `Math.min(undefined, v) = NaN`)
instead of being clamped to a valid bound. -/
theorem c10_winsorize_upper_oob (data : List Row) (v : String) (lp : ℚ)
    (h : sortedVals data v ≠ []) :
    ⌊((sortedVals data v).length : ℚ) * (1 : ℚ)⌋ = ((sortedVals data v).length : ℤ)
    ∧ jsGet (sortedVals data v) (((sortedVals data v).length : ℕ) : ℤ) = none
    ∧ winsorizeData data v lp 1 = data.map (fun r =>
        match parseFloatCell (lookupCell r v) with
        | none => r
        | some _ => rowUpdate r v Cell.nan) := by
  have hfloor : ⌊((sortedVals data v).length : ℚ) * (1 : ℚ)⌋
      = ((sortedVals data v).length : ℤ) := by
    rw [mul_one]
    exact Int.floor_natCast _
  have hget : jsGet (sortedVals data v) (((sortedVals data v).length : ℕ) : ℤ) = none := by
    unfold jsGet
    rw [if_neg (not_lt.mpr (Int.natCast_nonneg _))]
    rw [Int.toNat_natCast]
    exact List.get?_length _
  refine ⟨hfloor, hget, ?_⟩
  simp only [winsorizeData]
  rw [if_neg h]
  rw [hfloor, hget]
  simp only [jminO, Option.map_none', jmaxO_none_right, toCell]

/-- Witness for C10: on `[{x:1},{x:2}]` every numeric row's `x` becomes NaN. -/
theorem c10_winsorize_upper_oob_witness :
    winsorizeData [[("x", Cell.num 1)], [("x", Cell.num 2)]] "x" (1/20) 1 =
      [[("x", Cell.nan)], [("x", Cell.nan)]] := by
  rw [(c10_winsorize_upper_oob [[("x", Cell.num 1)], [("x", Cell.num 2)]] "x" (1/20)
    (by decide)).2.2]
  decide

/-! ## Claim C8 -/

/-- Modelled from the claim's (and spec §4.2.3's) wording of the scaling
factor: the parsed weight summed over all rows, defaulting to 1 only when
there is no weight column or the parse fails.  Compare `rowWeight`, the code's
per-row weight, which additionally coerces a parsed weight of 0 to 1. -/
def claimRowWeight (wc : Option String) (r : Row) : ℚ :=
  match wc with
  | none => 1
  | some c =>
    match parseFloatCell (lookupCell r c) with
    | none => 1
    | some q => q

/-- The claim's scaling factor `Σ weight` over ALL rows of the dataset. -/
def claimTotalWeight (data : List Row) (wc : Option String) : ℚ :=
  (data.map (claimRowWeight wc)).sum

/-- Two rows, one with weight 0 (coerced to 1 by the code). -/
def dataW0 : List Row :=
  [[("x", Cell.num 1), ("w", Cell.num 0)], [("x", Cell.num 2), ("w", Cell.num 3)]]

/-- **C8 counterexample.** On a dataset with a weight cell holding 0, the
claim's factor (parse failures default to 1, a parsed 0 stays 0) gives
`Σweight = 3` and predicts a total of `(7/4)×3 = 21/4`; the code coerces the
0 weight to 1, uses `Σweight = 4`, and returns 7. -/
theorem c8_total_factor_counterexample :
    estimateOf (calculateWeightedTotal dataW0 "x" (some "w") defaultOptions rng0) = 7
    ∧ estimateOf (calculateWeightedMean dataW0 "x" (some "w") defaultOptions rng0) *
        claimTotalWeight dataW0 (some "w") = 21/4
    ∧ (7 : ℚ) ≠ 21/4 := by
  have h : filteredValues dataW0 "x" (some "w") = [(1, 1), (2, 3)] := by decide
  have hne : filteredValues dataW0 "x" (some "w") ≠ [] := by
    rw [h]; exact List.cons_ne_nil _ _
  have hm := calcWM_ok dataW0 "x" (some "w") defaultOptions rng0 hne
  have htw : totalWeightAll dataW0 (some "w") = 4 := by
    have hmap : dataW0.map (rowWeight (some "w")) = [1, 3] := by decide
    rw [totalWeightAll, hmap]
    norm_num
  have hctw : claimTotalWeight dataW0 (some "w") = 3 := by
    have hmap : dataW0.map (claimRowWeight (some "w")) = [0, 3] := by decide
    rw [claimTotalWeight, hmap]
    norm_num
  have hmean : estimateOf (calculateWeightedMean dataW0 "x" (some "w") defaultOptions rng0)
      = 7/4 := by
    rw [hm]
    show meanEst (filteredValues dataW0 "x" (some "w")) = 7/4
    rw [h, meanEst]
    norm_num [weightedSum, sumWeights]
  refine ⟨?_, ?_, by norm_num⟩
  · rw [calcWT_ok dataW0 "x" (some "w") defaultOptions rng0 _ hm]
    show meanEst (filteredValues dataW0 "x" (some "w")) * totalWeightAll dataW0 (some "w") = 7
    rw [h, htw, meanEst]
    norm_num [weightedSum, sumWeights]
  · rw [hmean, hctw]
    norm_num

/-- **C8 amended.** For every dataset on which the mean succeeds, the total's
`estimate`, `standardError` and `marginOfError` are the mean's fields scaled
by the single factor `totalWeightAll` — `Σ` over ALL rows of the code's
coerced row weight (`parseFloat(row[w]) || 1`, which sends missing,
unparseable AND zero weights to 1), not filtered by variable validity —
while `sampleSize`, `effectiveSampleSize` and `designEffect` pass through
unchanged. -/
theorem c8_total_scaling (data : List Row) (v : String) (wc : Option String)
    (o : EstimationOptions) (rng : ℕ → ℕ) (h : filteredValues data v wc ≠ []) :
    estimateOf (calculateWeightedTotal data v wc o rng) =
      estimateOf (calculateWeightedMean data v wc o rng) * totalWeightAll data wc
    ∧ seOf (calculateWeightedTotal data v wc o rng) =
      rmulc (seOf (calculateWeightedMean data v wc o rng)) (totalWeightAll data wc)
    ∧ moeOf (calculateWeightedTotal data v wc o rng) =
      rmulc (moeOf (calculateWeightedMean data v wc o rng)) (totalWeightAll data wc)
    ∧ nOf (calculateWeightedTotal data v wc o rng) =
      nOf (calculateWeightedMean data v wc o rng)
    ∧ essOf (calculateWeightedTotal data v wc o rng) =
      essOf (calculateWeightedMean data v wc o rng)
    ∧ deffOf (calculateWeightedTotal data v wc o rng) =
      deffOf (calculateWeightedMean data v wc o rng) := by
  have hm := calcWM_ok data v wc o rng h
  rw [calcWT_ok data v wc o rng _ hm, hm]
  exact ⟨rfl, rfl, rfl, rfl, rfl, rfl⟩

/-- Witness for C8 (amended) at the weighted two-row example. -/
theorem c8_total_scaling_witness :
    estimateOf (calculateWeightedTotal
        [[("x", Cell.num 10), ("w", Cell.num 1)], [("x", Cell.num 20), ("w", Cell.num 3)]]
        "x" (some "w") defaultOptions rng0) =
      estimateOf (calculateWeightedMean
        [[("x", Cell.num 10), ("w", Cell.num 1)], [("x", Cell.num 20), ("w", Cell.num 3)]]
        "x" (some "w") defaultOptions rng0) *
      totalWeightAll
        [[("x", Cell.num 10), ("w", Cell.num 1)], [("x", Cell.num 20), ("w", Cell.num 3)]]
        (some "w") :=
  (c8_total_scaling _ "x" (some "w") defaultOptions rng0 (by decide)).1

/-! ## Claim C4 -/

/-- Weighted options (design effect applied), default confidence level. -/
def optsW : EstimationOptions :=
  { weighted := true, confidenceLevel := 95/100,
    varianceMethod := VarianceMethod.taylor,
    finitePopulationCorrection := false, populationSize := none }

/-- Twelve rows with alternating 0/1 values; eleven unit weights and one
weight of 3, so the Kish design effect is 60/49 and the effective sample size
49/5 = 9.8 drops below the `df > 10` t-table bucket while n − 1 = 11 stays in
it. -/
def dataDf : List Row :=
  [[("x", Cell.num 0), ("w", Cell.num 1)],
   [("x", Cell.num 1), ("w", Cell.num 1)],
   [("x", Cell.num 0), ("w", Cell.num 1)],
   [("x", Cell.num 1), ("w", Cell.num 1)],
   [("x", Cell.num 0), ("w", Cell.num 1)],
   [("x", Cell.num 1), ("w", Cell.num 1)],
   [("x", Cell.num 0), ("w", Cell.num 1)],
   [("x", Cell.num 1), ("w", Cell.num 1)],
   [("x", Cell.num 0), ("w", Cell.num 1)],
   [("x", Cell.num 1), ("w", Cell.num 1)],
   [("x", Cell.num 0), ("w", Cell.num 1)],
   [("x", Cell.num 1), ("w", Cell.num 3)]]

/-- The filtered pairs of `dataDf`. -/
def pairsDf : List (ℚ × ℚ) :=
  [(0, 1), (1, 1), (0, 1), (1, 1), (0, 1), (1, 1), (0, 1), (1, 1), (0, 1),
   (1, 1), (0, 1), (1, 3)]

/-- **C4 counterexample.** On `dataDf` the code computes the critical value at
`df = effectiveSampleSize − 1 = 8.8` (t = 2.571), not at `df = n − 1 = 11`
(t = 2.228), and the adjusted standard error is strictly positive, so the
returned margin of error differs from `criticalValue(confidenceLevel, n−1) ×
adjustedSE` as the claim states it. -/
theorem c4_df_counterexample :
    moeOf (calculateWeightedMean dataDf "x" (some "w") optsW rng0) ≠
      rmul (some ((getTValue ((1 - optsW.confidenceLevel) / 2)
          ((nOf (calculateWeightedMean dataDf "x" (some "w") optsW rng0) : ℚ) - 1) : ℚ) : ℝ))
        (seOf (calculateWeightedMean dataDf "x" (some "w") optsW rng0)) := by
  have h : filteredValues dataDf "x" (some "w") = pairsDf := by decide
  have hne : filteredValues dataDf "x" (some "w") ≠ [] := by
    rw [h]; exact List.cons_ne_nil _ _
  have hm := calcWM_ok dataDf "x" (some "w") optsW rng0 hne
  have hlen : (pairsDf : List (ℚ × ℚ)).length = 12 := rfl
  have hme : meanEst pairsDf = 4/7 := by
    rw [meanEst]
    norm_num [pairsDf, weightedSum, sumWeights]
  have hdeff : meanDeff pairsDf optsW = 60/49 := by
    have hw : meanDeff pairsDf optsW = calculateDesignEffect pairsDf := rfl
    rw [hw]
    norm_num [pairsDf, calculateDesignEffect]
  have hvar : meanVar pairsDf optsW rng0 = some (12/49) := by
    rw [meanVar, hme]
    show taylorVariance pairsDf (4/7) = some (12/49)
    unfold taylorVariance jdiv
    norm_num [pairsDf, sumWeights]
  have hadj : meanAdjSE pairsDf optsW rng0 =
      some (Real.sqrt (((1 : ℚ)/49 : ℚ) : ℝ) * Real.sqrt (((60 : ℚ)/49 : ℚ) : ℝ) * 1) := by
    rw [meanAdjSE, hvar, hdeff, hlen]
    have hdiv : odivO (some ((12 : ℚ)/49)) ((12 : ℕ) : ℚ) = some (1/49) := by
      unfold odivO jdiv
      norm_num
    rw [hdiv]
    simp only [jsqrt]
    rw [if_neg (by norm_num)]
    rw [fpcFactor, if_neg (by decide)]
    simp only [rmul]
  have hs : (0 : ℝ) < Real.sqrt (((1 : ℚ)/49 : ℚ) : ℝ) * Real.sqrt (((60 : ℚ)/49 : ℚ) : ℝ) * 1 := by
    rw [mul_one]
    apply mul_pos
    · apply Real.sqrt_pos.mpr
      push_cast
      norm_num
    · apply Real.sqrt_pos.mpr
      push_cast
      norm_num
  have hmoe : moeOf (calculateWeightedMean dataDf "x" (some "w") optsW rng0) =
      rmul (some ((2571 : ℚ)/1000 : ℝ)) (meanAdjSE pairsDf optsW rng0) := by
    rw [hm]
    show meanMoE (filteredValues dataDf "x" (some "w")) optsW rng0 = _
    rw [h, meanMoE, calculateMarginOfError]
    have hdf : ((pairsDf.length : ℚ) / meanDeff pairsDf optsW) - 1 = 44/5 := by
      rw [hdeff, hlen]
      norm_num
    rw [hdf]
    have hcl : (1 - optsW.confidenceLevel) / 2 = 1/40 := by
      show (1 - (95 : ℚ)/100) / 2 = 1/40
      norm_num
    rw [hcl]
    have hgt : getTValue (1/40) (44/5) = 2571/1000 := by
      unfold getTValue
      norm_num
    rw [hgt]
    push_cast
    rfl
  have hn : nOf (calculateWeightedMean dataDf "x" (some "w") optsW rng0) = 12 := by
    rw [hm]
    show (filteredValues dataDf "x" (some "w")).length = 12
    rw [h, hlen]
  have hse : seOf (calculateWeightedMean dataDf "x" (some "w") optsW rng0) =
      meanAdjSE pairsDf optsW rng0 := by
    rw [hm]
    show meanAdjSE (filteredValues dataDf "x" (some "w")) optsW rng0 = _
    rw [h]
  rw [hmoe, hse, hn, hadj]
  have hgt2 : getTValue ((1 - optsW.confidenceLevel) / 2) (((12 : ℕ) : ℚ) - 1) = 2228/1000 := by
    have hcl : (1 - optsW.confidenceLevel) / 2 = 1/40 := by
      show (1 - (95 : ℚ)/100) / 2 = 1/40
      norm_num
    rw [hcl]
    unfold getTValue
    norm_num
  rw [hgt2]
  simp only [rmul]
  intro heq
  rw [Option.some.injEq] at heq
  have hcancel := mul_right_cancel₀ (ne_of_gt hs) heq
  push_cast at hcancel
  norm_num at hcancel

/-- **C4 amended.** For every successful call, the returned margin of error is
`getTValue((1 − confidenceLevel)/2, df) × adjustedSE` where
`df = effectiveSampleSize − 1` — the code passes the *effective* sample size,
not the filtered sample size, to the critical-value lookup (the two coincide
exactly when the design effect is 1, e.g. whenever `weighted` is false). -/
theorem c4_moe_uses_effective_df (data : List Row) (v : String)
    (wc : Option String) (o : EstimationOptions) (rng : ℕ → ℕ)
    (h : filteredValues data v wc ≠ []) :
    moeOf (calculateWeightedMean data v wc o rng) =
      rmul (some ((getTValue ((1 - o.confidenceLevel) / 2)
          (essOf (calculateWeightedMean data v wc o rng) - 1) : ℚ) : ℝ))
        (seOf (calculateWeightedMean data v wc o rng)) := by
  rw [calcWM_ok data v wc o rng h]
  rfl

/-- Witness for C4 (amended) at the unit-weight example `[2, 4, 6]`. -/
theorem c4_moe_uses_effective_df_witness :
    moeOf (calculateWeightedMean
        [[("x", Cell.num 2)], [("x", Cell.num 4)], [("x", Cell.num 6)]]
        "x" none defaultOptions rng0) =
      rmul (some ((getTValue ((1 - defaultOptions.confidenceLevel) / 2)
          (essOf (calculateWeightedMean
            [[("x", Cell.num 2)], [("x", Cell.num 4)], [("x", Cell.num 6)]]
            "x" none defaultOptions rng0) - 1) : ℚ) : ℝ))
        (seOf (calculateWeightedMean
          [[("x", Cell.num 2)], [("x", Cell.num 4)], [("x", Cell.num 6)]]
          "x" none defaultOptions rng0)) :=
  c4_moe_uses_effective_df _ "x" none defaultOptions rng0 (by decide)

/-! ## Claim C7 -/

/-- Is the fpc factor a (finite, well-defined) real number: either the guard
is off, or `populationSize > n` so the radicand is positive. -/
def fpcFinite (o : EstimationOptions) (n : ℕ) : Bool :=
  !(fpcApplies o) ||
    (match o.populationSize with
     | some npop => decide ((n : ℚ) < npop)
     | none => false)

lemma getTValue_pos (alpha df : ℚ) : 0 < getTValue alpha df := by
  unfold getTValue
  split_ifs <;> norm_num

lemma sumWeights_pos (l : List (ℚ × ℚ)) (h : l ≠ [])
    (hw : ∀ p ∈ l, 0 < p.2) : 0 < sumWeights l := by
  unfold sumWeights
  apply List.sum_pos
  · intro x hx
    rw [List.mem_map] at hx
    obtain ⟨p, hp, rfl⟩ := hx
    exact hw p hp
  · intro hc
    exact h (List.map_eq_nil.mp hc)

lemma fpcFactor_some_nonneg (o : EstimationOptions) (n : ℕ) (hn : 1 ≤ n)
    (hfin : fpcFinite o n = true) :
    ∃ c : ℝ, fpcFactor o n = some c ∧ 0 ≤ c := by
  by_cases happ : fpcApplies o = true
  · unfold fpcFinite at hfin
    rw [happ] at hfin
    simp only [Bool.not_true, Bool.false_or] at hfin
    cases hps : o.populationSize with
    | none => rw [hps] at hfin; exact absurd hfin (by simp)
    | some npop =>
      rw [hps] at hfin
      have hlt : (n : ℚ) < npop := by
        have hfin2 : decide ((n : ℚ) < npop) = true := hfin
        exact of_decide_eq_true hfin2
      have hn1 : (1 : ℚ) ≤ (n : ℚ) := by exact_mod_cast hn
      have hgt1 : (1 : ℚ) < npop := lt_of_le_of_lt hn1 hlt
      have hd : npop - 1 ≠ 0 := by
        intro hc
        rw [sub_eq_zero] at hc
        rw [hc] at hgt1
        exact lt_irrefl _ hgt1
      refine ⟨Real.sqrt (((npop - (n : ℚ)) / (npop - 1) : ℚ) : ℝ), ?_, Real.sqrt_nonneg _⟩
      have hbase : fpcBase o n = some ((npop - (n : ℚ)) / (npop - 1)) := by
        unfold fpcBase
        rw [hps]
        unfold jdiv
        show (if npop - 1 = 0 then (none : Option ℚ)
          else some ((npop - (n : ℚ)) / (npop - 1))) = some ((npop - (n : ℚ)) / (npop - 1))
        rw [if_neg hd]
      rw [fpcFactor, if_pos happ, hbase]
      simp only [jsqrt]
      rw [if_neg (not_lt.mpr (div_nonneg (by linarith) (by linarith)))]
  · refine ⟨1, ?_, zero_le_one⟩
    rw [fpcFactor, if_neg happ]

lemma propValues_weight_pos (data : List Row) (v : String) (category : Cell)
    (wc : Option String) : ∀ p ∈ propValues data v category wc, 0 < p.2 := by
  intro p hp
  unfold propValues at hp
  rw [List.mem_filter] at hp
  simpa using hp.2

lemma propValues_val01 (data : List Row) (v : String) (category : Cell)
    (wc : Option String) : ∀ p ∈ propValues data v category wc, p.1 = 0 ∨ p.1 = 1 := by
  intro p hp
  unfold propValues at hp
  rw [List.mem_filter] at hp
  have hmem := hp.1
  rw [List.mem_map] at hmem
  obtain ⟨r, _, rfl⟩ := hmem
  by_cases hc : jsStrictEq (lookupCell r v) category = true
  · right; simp [hc]
  · left; simp [hc]

/-- Options with the fpc flag set and `populationSize = 2`. -/
def optsFpcSmall : EstimationOptions :=
  { weighted := false, confidenceLevel := 95/100,
    varianceMethod := VarianceMethod.taylor,
    finitePopulationCorrection := true, populationSize := some 2 }

/-- **C7 counterexample.** With `finitePopulationCorrection` and
`populationSize = 2` on three matching rows, `calculateWeightedProportion`
returns — but the fpc radicand is `(2−3)/(2−1) = −1`, the factor is NaN, and
both confidence bounds are NaN, so `0 ≤ CI[0]` fails (NaN comparisons are
false). -/
theorem c7_nan_ci_counterexample :
    isOkE (calculateWeightedProportion
      [[("x", Cell.num 1)], [("x", Cell.num 1)], [("x", Cell.num 1)]]
      "x" (Cell.num 1) none optsFpcSmall) = true
    ∧ (ciOf (calculateWeightedProportion
      [[("x", Cell.num 1)], [("x", Cell.num 1)], [("x", Cell.num 1)]]
      "x" (Cell.num 1) none optsFpcSmall)).1 = none
    ∧ ¬ jsLe (some 0) (ciOf (calculateWeightedProportion
      [[("x", Cell.num 1)], [("x", Cell.num 1)], [("x", Cell.num 1)]]
      "x" (Cell.num 1) none optsFpcSmall)).1 := by
  have h : propValues [[("x", Cell.num 1)], [("x", Cell.num 1)], [("x", Cell.num 1)]]
      "x" (Cell.num 1) none = [(1, 1), (1, 1), (1, 1)] := by decide
  have hne : propValues [[("x", Cell.num 1)], [("x", Cell.num 1)], [("x", Cell.num 1)]]
      "x" (Cell.num 1) none ≠ [] := by
    rw [h]; exact List.cons_ne_nil _ _
  have hfpc : fpcFactor optsFpcSmall 3 = none := by
    have hbase : fpcBase optsFpcSmall 3 = some (-1) := by
      unfold fpcBase optsFpcSmall
      norm_num [jdiv]
    rw [fpcFactor, if_pos (by decide), hbase]
    simp only [jsqrt]
    rw [if_pos (by norm_num)]
  have hadj : propAdjSE [((1 : ℚ), (1 : ℚ)), (1, 1), (1, 1)] optsFpcSmall = none := by
    rw [propAdjSE]
    rw [show (([((1 : ℚ), (1 : ℚ)), (1, 1), (1, 1)] : List (ℚ × ℚ))).length = 3 from rfl]
    rw [hfpc, rmul_none_right]
  have hmoe : propMoE [((1 : ℚ), (1 : ℚ)), (1, 1), (1, 1)] optsFpcSmall = none := by
    rw [propMoE, calculateMarginOfError, hadj, rmul_none_right]
  refine ⟨?_, ?_, ?_⟩
  · rw [calcWP_ok _ _ _ _ _ hne]; rfl
  · rw [calcWP_ok _ _ _ _ _ hne]
    show ((rsub _ (propMoE (propValues _ "x" (Cell.num 1) none) optsFpcSmall)).map
      (fun a => max 0 a)) = none
    rw [h, hmoe]
    rfl
  · rw [calcWP_ok _ _ _ _ _ hne]
    show ¬ jsLe (some 0) ((rsub _ (propMoE (propValues _ "x" (Cell.num 1) none) optsFpcSmall)).map
      (fun a => max 0 a))
    rw [h, hmoe]
    exact jsLe_none_right _

/-- **C7 amended.** Whenever `calculateWeightedProportion` returns *and* the
fpc factor is a well-defined number (the correction is off, or
`populationSize > sampleSize`), the result satisfies
`0 ≤ CI[0] ≤ estimate ≤ CI[1] ≤ 1`; when the fpc factor is NaN the
comparisons fail because the clipped bounds are themselves NaN. -/
theorem c7_proportion_ci_in_unit_interval (data : List Row) (v : String)
    (category : Cell) (wc : Option String) (o : EstimationOptions)
    (h : propValues data v category wc ≠ [])
    (hfin : fpcFinite o (propValues data v category wc).length = true) :
    jsLe (some 0) (ciOf (calculateWeightedProportion data v category wc o)).1
    ∧ jsLe (ciOf (calculateWeightedProportion data v category wc o)).1
        (some ((estimateOf (calculateWeightedProportion data v category wc o) : ℚ) : ℝ))
    ∧ jsLe (some ((estimateOf (calculateWeightedProportion data v category wc o) : ℚ) : ℝ))
        (ciOf (calculateWeightedProportion data v category wc o)).2
    ∧ jsLe (ciOf (calculateWeightedProportion data v category wc o)).2 (some 1) := by
  have hw := propValues_weight_pos data v category wc
  have h01 := propValues_val01 data v category wc
  have hsw : 0 < sumWeights (propValues data v category wc) :=
    sumWeights_pos _ h hw
  have hws0 : 0 ≤ weightedSum (propValues data v category wc) := by
    unfold weightedSum
    apply List.sum_nonneg
    intro x hx
    rw [List.mem_map] at hx
    obtain ⟨p, hp, rfl⟩ := hx
    rcases h01 p hp with h0 | h1
    · rw [h0, zero_mul]
    · rw [h1, one_mul]
      exact le_of_lt (hw p hp)
  have hwsle : weightedSum (propValues data v category wc)
      ≤ sumWeights (propValues data v category wc) := by
    unfold weightedSum sumWeights
    apply List.sum_le_sum
    intro p hp
    rcases h01 p hp with h0 | h1
    · rw [h0, zero_mul]
      exact le_of_lt (hw p hp)
    · rw [h1, one_mul]
  have hp0 : 0 ≤ meanEst (propValues data v category wc) := by
    unfold meanEst
    exact div_nonneg hws0 (le_of_lt hsw)
  have hp1 : meanEst (propValues data v category wc) ≤ 1 := by
    unfold meanEst
    rw [div_le_one hsw]
    exact hwsle
  have hn : 1 ≤ (propValues data v category wc).length := List.length_pos.mpr h
  obtain ⟨c, hc, hc0⟩ := fpcFactor_some_nonneg o _ hn hfin
  have hdeffpos : (0 : ℝ) ≤ Real.sqrt ((meanDeff (propValues data v category wc) o : ℚ) : ℝ) :=
    Real.sqrt_nonneg _
  have hvarnn : ¬ ((meanEst (propValues data v category wc) *
      (1 - meanEst (propValues data v category wc))) /
        ((propValues data v category wc).length : ℚ) < 0) := by
    apply not_lt.mpr
    apply div_nonneg
    · exact mul_nonneg hp0 (by linarith)
    · exact_mod_cast Nat.zero_le _
  have hadj : ∃ s : ℝ, propAdjSE (propValues data v category wc) o = some s ∧ 0 ≤ s := by
    refine ⟨Real.sqrt (((meanEst (propValues data v category wc) *
        (1 - meanEst (propValues data v category wc))) /
          ((propValues data v category wc).length : ℚ) : ℚ) : ℝ) *
      Real.sqrt ((meanDeff (propValues data v category wc) o : ℚ) : ℝ) * c, ?_, ?_⟩
    · rw [propAdjSE]
      simp only [jsqrt]
      rw [if_neg hvarnn, hc]
      simp only [rmul]
    · exact mul_nonneg (mul_nonneg (Real.sqrt_nonneg _) hdeffpos) hc0
  obtain ⟨s, hs, hs0⟩ := hadj
  have hmoe : ∃ m : ℝ, propMoE (propValues data v category wc) o = some m ∧ 0 ≤ m := by
    refine ⟨((getTValue ((1 - o.confidenceLevel) / 2)
        (((propValues data v category wc).length : ℚ) /
          meanDeff (propValues data v category wc) o - 1) : ℚ) : ℝ) * s, ?_, ?_⟩
    · rw [propMoE, calculateMarginOfError, hs]
      simp only [rmul]
    · apply mul_nonneg _ hs0
      have := getTValue_pos ((1 - o.confidenceLevel) / 2)
        (((propValues data v category wc).length : ℚ) /
          meanDeff (propValues data v category wc) o - 1)
      exact_mod_cast le_of_lt this
  obtain ⟨m, hm, hm0⟩ := hmoe
  rw [calcWP_ok data v category wc o h]
  simp only [ciOf, estimateOf]
  rw [hm]
  simp only [rsub, radd, Option.map_some']
  have hp0r : (0 : ℝ) ≤ ((meanEst (propValues data v category wc) : ℚ) : ℝ) := by
    exact_mod_cast hp0
  have hp1r : ((meanEst (propValues data v category wc) : ℚ) : ℝ) ≤ 1 := by
    exact_mod_cast hp1
  refine ⟨?_, ?_, ?_, ?_⟩
  · rw [jsLe_some_some]
    exact le_max_left _ _
  · rw [jsLe_some_some]
    apply max_le hp0r
    linarith
  · rw [jsLe_some_some]
    apply le_min hp1r
    linarith
  · rw [jsLe_some_some]
    exact min_le_left _ _

/-- Witness for C7 (amended) on a two-row dataset with one matching row and
the default (fpc-off) options. -/
theorem c7_proportion_ci_in_unit_interval_witness :
    jsLe (some 0) (ciOf (calculateWeightedProportion
      [[("x", Cell.num 1)], [("x", Cell.num 2)]] "x" (Cell.num 1) none defaultOptions)).1
    ∧ jsLe (ciOf (calculateWeightedProportion
      [[("x", Cell.num 1)], [("x", Cell.num 2)]] "x" (Cell.num 1) none defaultOptions)).1
        (some ((estimateOf (calculateWeightedProportion
          [[("x", Cell.num 1)], [("x", Cell.num 2)]] "x" (Cell.num 1) none defaultOptions) : ℚ) : ℝ))
    ∧ jsLe (some ((estimateOf (calculateWeightedProportion
          [[("x", Cell.num 1)], [("x", Cell.num 2)]] "x" (Cell.num 1) none defaultOptions) : ℚ) : ℝ))
        (ciOf (calculateWeightedProportion
          [[("x", Cell.num 1)], [("x", Cell.num 2)]] "x" (Cell.num 1) none defaultOptions)).2
    ∧ jsLe (ciOf (calculateWeightedProportion
      [[("x", Cell.num 1)], [("x", Cell.num 2)]] "x" (Cell.num 1) none defaultOptions)).2 (some 1) :=
  c7_proportion_ci_in_unit_interval _ "x" (Cell.num 1) none defaultOptions
    (by decide) (by decide)

/-! ## Claim C9 -/

/-- The per-row transformation of `winsorizeData` once the bounds are fixed. -/
def winsorStep (v : String) (lb ub : Option ℚ) (r : Row) : Row :=
  match parseFloatCell (lookupCell r v) with
  | none => r
  | some value => rowUpdate r v (toCell (jmaxO lb (jminO ub value)))

lemma lookupCell_rowUpdate (r : Row) (k : String) (c : Cell) :
    lookupCell (rowUpdate r k c) k = c := by
  induction r with
  | nil =>
    simp [rowUpdate, lookupCell, List.find?]
  | cons hd tl ih =>
    obtain ⟨k', c'⟩ := hd
    by_cases hk : k' = k
    · simp [rowUpdate, hk, lookupCell, List.find?]
    · simp only [rowUpdate, if_neg hk]
      rw [show lookupCell ((k', c') :: rowUpdate tl k c) k
          = lookupCell (rowUpdate tl k c) k from by
        simp [lookupCell, List.find?, show (k' == k) = false from beq_eq_false_iff_ne.mpr hk]]
      exact ih

lemma rowUpdate_rowUpdate (r : Row) (k : String) (c c' : Cell) :
    rowUpdate (rowUpdate r k c) k c' = rowUpdate r k c' := by
  induction r with
  | nil => simp [rowUpdate]
  | cons hd tl ih =>
    obtain ⟨k1, c1⟩ := hd
    by_cases hk : k1 = k
    · simp [rowUpdate, hk]
    · simp only [rowUpdate, if_neg hk]
      rw [ih]

lemma rawVals_eq (data : List Row) (v : String) :
    rawVals data v = data.filterMap (fun r => parseFloatCell (lookupCell r v)) := by
  unfold rawVals
  rw [List.filterMap_map]
  rfl

lemma winsorizeData_eq_map (data : List Row) (v : String) (lp up : ℚ)
    (h : sortedVals data v ≠ []) :
    winsorizeData data v lp up = data.map (winsorStep v
      (jsGet (sortedVals data v) ⌊((sortedVals data v).length : ℚ) * lp⌋)
      (jsGet (sortedVals data v) ⌊((sortedVals data v).length : ℚ) * up⌋)) := by
  simp only [winsorizeData]
  rw [if_neg h]
  rfl

lemma parse_winsorStep_some (v : String) (lbq ubq : ℚ) (r : Row) :
    parseFloatCell (lookupCell (winsorStep v (some lbq) (some ubq) r) v) =
      (parseFloatCell (lookupCell r v)).map (fun q => max lbq (min ubq q)) := by
  unfold winsorStep
  split
  · rename_i hp
    rw [hp]
    rfl
  · rename_i value hp
    rw [lookupCell_rowUpdate, hp]
    simp [jminO, jmaxO, toCell, parseFloatCell]

lemma rawVals_map_winsorStep (data : List Row) (v : String) (lbq ubq : ℚ) :
    rawVals (data.map (winsorStep v (some lbq) (some ubq))) v =
      (rawVals data v).map (fun q => max lbq (min ubq q)) := by
  rw [rawVals_eq, rawVals_eq, List.filterMap_map, List.map_filterMap]
  rw [show ((fun r => parseFloatCell (lookupCell r v)) ∘ winsorStep v (some lbq) (some ubq))
      = (fun r => (parseFloatCell (lookupCell r v)).map (fun q => max lbq (min ubq q)))
    from funext fun r => parse_winsorStep_some v lbq ubq r]

lemma sortedVals_map_winsorStep (data : List Row) (v : String) (lbq ubq : ℚ) :
    sortedVals (data.map (winsorStep v (some lbq) (some ubq))) v =
      (sortedVals data v).map (fun q => max lbq (min ubq q)) := by
  unfold sortedVals
  rw [rawVals_map_winsorStep]
  exact List.eq_of_perm_of_sorted
    ((List.perm_insertionSort _ _).trans
      (((List.perm_insertionSort _ _).symm).map _))
    (List.sorted_insertionSort _ _)
    (List.Pairwise.map _
      (fun a b hab => max_le_max le_rfl (min_le_min le_rfl hab))
      (List.sorted_insertionSort _ _))

lemma winsorStep_idem (v : String) (lbq ubq : ℚ) (hle : lbq ≤ ubq) (r : Row) :
    winsorStep v (some lbq) (some ubq) (winsorStep v (some lbq) (some ubq) r) =
      winsorStep v (some lbq) (some ubq) r := by
  cases hp : parseFloatCell (lookupCell r v) with
  | none =>
    have h1 : winsorStep v (some lbq) (some ubq) r = r := by
      unfold winsorStep
      rw [hp]
    rw [h1, h1]
  | some q =>
    have h1 : winsorStep v (some lbq) (some ubq) r
        = rowUpdate r v (Cell.num (max lbq (min ubq q))) := by
      unfold winsorStep
      rw [hp]
      rfl
    rw [h1]
    have h2 : parseFloatCell (lookupCell
        (rowUpdate r v (Cell.num (max lbq (min ubq q)))) v)
        = some (max lbq (min ubq q)) := by
      rw [lookupCell_rowUpdate]
      rfl
    have hcle : max lbq (min ubq q) ≤ ubq := max_le hle (min_le_left _ _)
    have hcge : lbq ≤ max lbq (min ubq q) := le_max_left _ _
    have hcq : max lbq (min ubq (max lbq (min ubq q))) = max lbq (min ubq q) := by
      rw [min_eq_right hcle, max_eq_right hcge]
    unfold winsorStep
    rw [h2]
    show rowUpdate (rowUpdate r v (Cell.num (max lbq (min ubq q)))) v
        (toCell (jmaxO (some lbq) (jminO (some ubq) (max lbq (min ubq q)))))
      = rowUpdate r v (Cell.num (max lbq (min ubq q)))
    rw [show toCell (jmaxO (some lbq) (jminO (some ubq) (max lbq (min ubq q))))
        = Cell.num (max lbq (min ubq q)) from by
      simp [jminO, jmaxO, toCell, hcq]]
    exact rowUpdate_rowUpdate r v _ _

lemma jsGet_eq_get (l : List ℚ) (i : ℤ) (h0 : 0 ≤ i) (hlt : i.toNat < l.length) :
    jsGet l i = some (l.get ⟨i.toNat, hlt⟩) := by
  unfold jsGet
  rw [if_neg (not_lt.mpr h0)]
  exact List.get?_eq_get hlt

lemma winsorize_second_pass (data : List Row) (v : String) (lp up : ℚ)
    (h2 : sortedVals data v ≠ [])
    (hli0 : 0 ≤ ⌊((sortedVals data v).length : ℚ) * lp⌋)
    (hui0 : 0 ≤ ⌊((sortedVals data v).length : ℚ) * up⌋)
    (hliN : (⌊((sortedVals data v).length : ℚ) * lp⌋).toNat < (sortedVals data v).length)
    (huiN : (⌊((sortedVals data v).length : ℚ) * up⌋).toNat < (sortedVals data v).length)
    (hidx : (⌊((sortedVals data v).length : ℚ) * lp⌋).toNat
      ≤ (⌊((sortedVals data v).length : ℚ) * up⌋).toNat) :
    winsorizeData (winsorizeData data v lp up) v lp up = winsorizeData data v lp up := by
  have hsorted : (sortedVals data v).Sorted (· ≤ ·) :=
    List.sorted_insertionSort _ _
  have hlbub : (sortedVals data v).get ⟨_, hliN⟩ ≤ (sortedVals data v).get ⟨_, huiN⟩ :=
    hsorted.rel_get_of_le (Fin.mk_le_mk.mpr hidx)
  have hw1 : winsorizeData data v lp up = data.map (winsorStep v
      (some ((sortedVals data v).get ⟨_, hliN⟩))
      (some ((sortedVals data v).get ⟨_, huiN⟩))) := by
    rw [winsorizeData_eq_map data v lp up h2,
      jsGet_eq_get _ _ hli0 hliN, jsGet_eq_get _ _ hui0 huiN]
  have hs2 : sortedVals (data.map (winsorStep v
      (some ((sortedVals data v).get ⟨_, hliN⟩))
      (some ((sortedVals data v).get ⟨_, huiN⟩)))) v
      = (sortedVals data v).map (fun q => max ((sortedVals data v).get ⟨_, hliN⟩)
          (min ((sortedVals data v).get ⟨_, huiN⟩) q)) :=
    sortedVals_map_winsorStep data v _ _
  have hne2 : sortedVals (data.map (winsorStep v
      (some ((sortedVals data v).get ⟨_, hliN⟩))
      (some ((sortedVals data v).get ⟨_, huiN⟩)))) v ≠ [] := by
    rw [hs2]
    intro hc
    exact h2 (List.map_eq_nil.mp hc)
  rw [hw1]
  rw [winsorizeData_eq_map _ v lp up hne2]
  rw [hs2, List.length_map]
  have hlb2 : jsGet ((sortedVals data v).map (fun q => max ((sortedVals data v).get ⟨_, hliN⟩)
      (min ((sortedVals data v).get ⟨_, huiN⟩) q)))
      ⌊((sortedVals data v).length : ℚ) * lp⌋
      = some ((sortedVals data v).get ⟨_, hliN⟩) := by
    unfold jsGet
    rw [if_neg (not_lt.mpr hli0), List.get?_map, List.get?_eq_get hliN]
    simp only [Option.map_some']
    rw [min_eq_right hlbub, max_self]
  have hub2 : jsGet ((sortedVals data v).map (fun q => max ((sortedVals data v).get ⟨_, hliN⟩)
      (min ((sortedVals data v).get ⟨_, huiN⟩) q)))
      ⌊((sortedVals data v).length : ℚ) * up⌋
      = some ((sortedVals data v).get ⟨_, huiN⟩) := by
    unfold jsGet
    rw [if_neg (not_lt.mpr hui0), List.get?_map, List.get?_eq_get huiN]
    simp only [Option.map_some']
    rw [min_self, max_eq_right hlbub]
  rw [hlb2, hub2, List.map_map]
  rw [show (winsorStep v (some ((sortedVals data v).get ⟨_, hliN⟩))
        (some ((sortedVals data v).get ⟨_, huiN⟩)))
      ∘ (winsorStep v (some ((sortedVals data v).get ⟨_, hliN⟩))
        (some ((sortedVals data v).get ⟨_, huiN⟩)))
      = winsorStep v (some ((sortedVals data v).get ⟨_, hliN⟩))
        (some ((sortedVals data v).get ⟨_, huiN⟩))
    from funext fun r => winsorStep_idem v _ _ hlbub r]

/-- **C9.** `winsorizeData` at the percentiles (0.05, 0.95) is idempotent:
applying it twice to any dataset yields exactly the row list obtained by
applying it once (the second pass recomputes the same bounds and every value
is already clamped into them). -/
theorem c9_winsorize_idempotent (data : List Row) (v : String) :
    winsorizeData (winsorizeData data v (1/20) (19/20)) v (1/20) (19/20) =
      winsorizeData data v (1/20) (19/20) := by
  by_cases h : sortedVals data v = []
  · have h1 : winsorizeData data v (1/20) (19/20) = data := by
      simp only [winsorizeData]
      rw [if_pos h]
    rw [h1]
    exact h1
  · have hn : 0 < (sortedVals data v).length := List.length_pos.mpr h
    have hnq : (1 : ℚ) ≤ ((sortedVals data v).length : ℚ) := by exact_mod_cast hn
    have hli0 : 0 ≤ ⌊((sortedVals data v).length : ℚ) * (1/20)⌋ := by
      apply Int.floor_nonneg.mpr
      positivity
    have hle_idx : ⌊((sortedVals data v).length : ℚ) * (1/20)⌋
        ≤ ⌊((sortedVals data v).length : ℚ) * (19/20)⌋ := by
      apply Int.floor_le_floor
      nlinarith
    have hui0 : 0 ≤ ⌊((sortedVals data v).length : ℚ) * (19/20)⌋ :=
      le_trans hli0 hle_idx
    have hui_lt : ⌊((sortedVals data v).length : ℚ) * (19/20)⌋
        < ((sortedVals data v).length : ℤ) := by
      apply Int.floor_lt.mpr
      push_cast
      linarith
    have hliN : (⌊((sortedVals data v).length : ℚ) * (1/20)⌋).toNat
        < (sortedVals data v).length := by omega
    have huiN : (⌊((sortedVals data v).length : ℚ) * (19/20)⌋).toNat
        < (sortedVals data v).length := by omega
    exact winsorize_second_pass data v (1/20) (19/20) h hli0 hui0 hliN huiN (by omega)

end Survey
